import Mathlib

/-!
Formal model of the car-expense-tracker data/service layer.

The embedding follows `src/lib/types.ts` (entity services for Expense,
Refill, Trip; the mileage aggregator) and `src/lib/services/authService.ts`
(password gate, JWT session issuer/validator), together with the SQLite
schema in `src/lib/db.ts`.

Modelling conventions:
* Monetary amounts and distances are rationals (the services only divide,
  add and compare them); SQL REAL arithmetic on these inputs is modelled
  exactly.
* Calendar timestamps produced by the clock (`created_at` / `updated_at`)
  are naturals; ISO-8601 strings of a single clock are order-isomorphic to
  their numeric instants.
* Entity `date` fields stay strings; SQLite compares TEXT bytewise, which
  is the lexicographic order on the string, and the date index scan yields
  rowid (insertion) order within equal dates, so `ORDER BY date ASC` is a
  stable sort by `date`.
* The JavaScript `new Date(s)` parse-validity test is an abstract oracle
  `dv : String → Bool` passed to every operation that validates a date.
* Fallible operations return `Except String α`, carrying the exact message
  of the `Error` the TypeScript code throws.
-/

deriving instance DecidableEq for Except

/-- Normalization applied to optional text fields when writing: the services
store `value || null`, so an absent or empty string becomes SQL NULL
(`none` here), and `mapRowTo*` reads NULL back as an absent field. -/
def normText : Option String → Option String
  | none => none
  | some s => if s = "" then none else some s

/-- Row of the `expenses` table, already in `mapRowToExpense` shape. -/
structure ExpenseRow where
  id : Nat
  type : String
  amount : ℚ
  date : String
  description : Option String
  createdAt : Nat
  updatedAt : Nat
deriving DecidableEq

/-- Row of the `refills` table, already in `mapRowToRefill` shape.
The schema declares a `liters REAL CHECK(liters > 0)` column, hence the
`Option` field; `mapRowToRefill` never reads it. -/
structure RefillRow where
  id : Nat
  amountSpent : ℚ
  distanceTraveled : ℚ
  liters : Option ℚ
  date : String
  notes : Option String
  efficiency : ℚ
  createdAt : Nat
  updatedAt : Nat
deriving DecidableEq

/-- Row of the `trips` table, already in `mapRowToTrip` shape. -/
structure TripRow where
  id : Nat
  distance : ℚ
  date : String
  purpose : Option String
  notes : Option String
  createdAt : Nat
  updatedAt : Nat
deriving DecidableEq

/-- The relational store: three independent tables in rowid (insertion)
order, plus the AUTOINCREMENT counters. -/
structure Store where
  expenses : List ExpenseRow
  refills : List RefillRow
  trips : List TripRow
  nextExpenseId : Nat
  nextRefillId : Nat
  nextTripId : Nat
deriving DecidableEq

/-- Freshly initialized schema: empty tables, ids start at 1. -/
def Store.empty : Store :=
  { expenses := [], refills := [], trips := [],
    nextExpenseId := 1, nextRefillId := 1, nextTripId := 1 }

/-! ### Trip service (`tripService.ts`) -/

/-- Input of `createTrip` (`Omit<Trip, 'id' | 'createdAt' | 'updatedAt'>`). -/
structure TripInput where
  distance : ℚ
  date : String
  purpose : Option String
  notes : Option String
deriving DecidableEq

/-- Input of `updateTrip`: each field is present (`some`) or absent (`none`);
a present text field may be the empty string. -/
structure TripPatch where
  distance : Option ℚ
  date : Option String
  purpose : Option String
  notes : Option String
deriving DecidableEq

/-- The empty patch `{}`. -/
def TripPatch.empty : TripPatch :=
  { distance := none, date := none, purpose := none, notes := none }

/-- Model of `createTrip`: validates, inserts a row with a fresh id and
`created_at = updated_at = now`, returns the mapped row. -/
def createTrip (dv : String → Bool) (s : Store) (now : Nat) (inp : TripInput) :
    Except String (TripRow × Store) :=
  if inp.distance ≤ 0 then .error "Distance must be a positive number"
  else if inp.date = "" then .error "Required field missing: date"
  else if ¬ dv inp.date then .error "Invalid date format. Use ISO 8601 format"
  else
    let row : TripRow :=
      { id := s.nextTripId, distance := inp.distance, date := inp.date,
        purpose := normText inp.purpose, notes := normText inp.notes,
        createdAt := now, updatedAt := now }
    .ok (row, { s with trips := s.trips ++ [row], nextTripId := s.nextTripId + 1 })

/-- Model of `getTripById` (`SELECT * FROM trips WHERE id = ?`). -/
def getTripById (s : Store) (id : Nat) : Option TripRow :=
  s.trips.find? (fun r => r.id == id)

/-- Comparison used by `ORDER BY date ASC` on trips. -/
def TripRow.dateLe (a b : TripRow) : Prop := a.date ≤ b.date

instance : DecidableRel TripRow.dateLe :=
  fun a b => inferInstanceAs (Decidable (a.date ≤ b.date))

instance : IsTotal TripRow TripRow.dateLe := ⟨fun a b => le_total a.date b.date⟩

instance : IsTrans TripRow TripRow.dateLe := ⟨fun _ _ _ h h2 => le_trans h h2⟩

/-- Model of `getTrips` (`SELECT * FROM trips ORDER BY date ASC`): a stable
sort of the table by date. -/
def getTrips (s : Store) : List TripRow :=
  List.insertionSort TripRow.dateLe s.trips

/-- Model of `updateTrip`: validates present fields, requires the row to
exist, overwrites exactly the supplied columns (text fields munged by
`|| null`) plus `updated_at`, and returns the re-read row. -/
def updateTrip (dv : String → Bool) (s : Store) (now : Nat) (id : Nat)
    (p : TripPatch) : Except String (TripRow × Store) :=
  if p.distance.any (fun d => decide (d ≤ 0)) then
    .error "Distance must be a positive number"
  else if p.date.any (fun d => !dv d) then
    .error "Invalid date format. Use ISO 8601 format"
  else
    match getTripById s id with
    | none => .error "Resource not found"
    | some old =>
      let row : TripRow :=
        { old with
          distance := p.distance.getD old.distance,
          date := p.date.getD old.date,
          purpose := match p.purpose with
            | some v => normText (some v)
            | none => old.purpose,
          notes := match p.notes with
            | some v => normText (some v)
            | none => old.notes,
          updatedAt := now }
      .ok (row, { s with trips := s.trips.map (fun r => if r.id = id then row else r) })

/-- Model of `deleteTrip`: returns whether a row matched, and the store
without that row. -/
def deleteTrip (s : Store) (id : Nat) : Bool × Store :=
  (s.trips.any (fun r => r.id == id),
   { s with trips := s.trips.filter (fun r => r.id != id) })

/-! ### Expense service (`expenseService.ts`) -/

/-- Input of `createExpense`. -/
structure ExpenseInput where
  type : String
  amount : ℚ
  date : String
  description : Option String
deriving DecidableEq

/-- Input of `updateExpense`; field present (`some`) or absent (`none`). -/
structure ExpensePatch where
  type : Option String
  amount : Option ℚ
  date : Option String
  description : Option String
deriving DecidableEq

/-- The empty patch `{}`. -/
def ExpensePatch.empty : ExpensePatch :=
  { type := none, amount := none, date := none, description := none }

/-- Model of `createExpense`: validates type/amount/date, inserts, returns
the mapped row. The `!expense.type || expense.type.trim() === ''` guard is
exactly `type.trim = ""`. -/
def createExpense (dv : String → Bool) (s : Store) (now : Nat)
    (inp : ExpenseInput) : Except String (ExpenseRow × Store) :=
  if inp.type.trim = "" then .error "Required field missing: type"
  else if inp.amount ≤ 0 then .error "Amount must be a positive number"
  else if inp.date = "" then .error "Required field missing: date"
  else if ¬ dv inp.date then .error "Invalid date format. Use ISO 8601 format"
  else
    let row : ExpenseRow :=
      { id := s.nextExpenseId, type := inp.type, amount := inp.amount,
        date := inp.date, description := normText inp.description,
        createdAt := now, updatedAt := now }
    .ok (row, { s with expenses := s.expenses ++ [row],
                       nextExpenseId := s.nextExpenseId + 1 })

/-- Model of `getExpenseById`. -/
def getExpenseById (s : Store) (id : Nat) : Option ExpenseRow :=
  s.expenses.find? (fun r => r.id == id)

/-- Comparison used by `ORDER BY date ASC` on expenses. -/
def ExpenseRow.dateLe (a b : ExpenseRow) : Prop := a.date ≤ b.date

instance : DecidableRel ExpenseRow.dateLe :=
  fun a b => inferInstanceAs (Decidable (a.date ≤ b.date))

instance : IsTotal ExpenseRow ExpenseRow.dateLe := ⟨fun a b => le_total a.date b.date⟩

instance : IsTrans ExpenseRow ExpenseRow.dateLe := ⟨fun _ _ _ h h2 => le_trans h h2⟩

/-- Model of `getExpenses` (`SELECT * FROM expenses ORDER BY date ASC`). -/
def getExpenses (s : Store) : List ExpenseRow :=
  List.insertionSort ExpenseRow.dateLe s.expenses

/-- Model of `updateExpense`: validates present fields (amount positive,
date parseable, type non-blank), requires the row to exist, overwrites the
supplied columns plus `updated_at`, returns the re-read row. -/
def updateExpense (dv : String → Bool) (s : Store) (now : Nat) (id : Nat)
    (p : ExpensePatch) : Except String (ExpenseRow × Store) :=
  if p.amount.any (fun a => decide (a ≤ 0)) then
    .error "Amount must be a positive number"
  else if p.date.any (fun d => !dv d) then
    .error "Invalid date format. Use ISO 8601 format"
  else if p.type.any (fun t => t.trim == "") then
    .error "Type cannot be empty"
  else
    match getExpenseById s id with
    | none => .error "Resource not found"
    | some old =>
      let row : ExpenseRow :=
        { old with
          type := p.type.getD old.type,
          amount := p.amount.getD old.amount,
          date := p.date.getD old.date,
          description := match p.description with
            | some v => normText (some v)
            | none => old.description,
          updatedAt := now }
      .ok (row, { s with expenses := s.expenses.map (fun r => if r.id = id then row else r) })

/-- Model of `deleteExpense`. -/
def deleteExpense (s : Store) (id : Nat) : Bool × Store :=
  (s.expenses.any (fun r => r.id == id),
   { s with expenses := s.expenses.filter (fun r => r.id != id) })

/-! ### Refill service (`refillService.ts`) -/

/-- Input of `createRefill`; its TypeScript type
`Omit<Refill, 'id' | 'efficiency' | 'createdAt' | 'updatedAt'>` includes
the optional `liters` field. -/
structure RefillInput where
  amountSpent : ℚ
  distanceTraveled : ℚ
  liters : Option ℚ
  date : String
  notes : Option String
deriving DecidableEq

/-- Input of `updateRefill`; its TypeScript type also includes `liters`,
though the function body never reads it. -/
structure RefillPatch where
  amountSpent : Option ℚ
  distanceTraveled : Option ℚ
  liters : Option ℚ
  date : Option String
  notes : Option String
deriving DecidableEq

/-- The empty patch `{}`. -/
def RefillPatch.empty : RefillPatch :=
  { amountSpent := none, distanceTraveled := none, liters := none,
    date := none, notes := none }

/-- Model of `calculateEfficiency`: cost per unit distance, guarded against
non-positive distance. -/
def calculateEfficiency (amountSpent distance : ℚ) : Except String ℚ :=
  if distance ≤ 0 then .error "Distance must be a positive number"
  else .ok (amountSpent / distance)

/-- Model of `createRefill`: validates, computes efficiency, inserts,
returns the mapped row. The INSERT statement lists only
`(amount_spent, distance_traveled, date, notes, efficiency, created_at,
updated_at)` — the `liters` column is omitted, so the stored row has NULL
liters whatever the input carried. -/
def createRefill (dv : String → Bool) (s : Store) (now : Nat)
    (inp : RefillInput) : Except String (RefillRow × Store) :=
  if inp.amountSpent ≤ 0 then .error "Amount must be a positive number"
  else if inp.distanceTraveled ≤ 0 then .error "Distance must be a positive number"
  else if inp.date = "" then .error "Required field missing: date"
  else if ¬ dv inp.date then .error "Invalid date format. Use ISO 8601 format"
  else
    match calculateEfficiency inp.amountSpent inp.distanceTraveled with
    | .error e => .error e
    | .ok eff =>
      let row : RefillRow :=
        { id := s.nextRefillId, amountSpent := inp.amountSpent,
          distanceTraveled := inp.distanceTraveled, liters := none,
          date := inp.date, notes := normText inp.notes, efficiency := eff,
          createdAt := now, updatedAt := now }
      .ok (row, { s with refills := s.refills ++ [row],
                         nextRefillId := s.nextRefillId + 1 })

/-- Model of `getRefillById`. -/
def getRefillById (s : Store) (id : Nat) : Option RefillRow :=
  s.refills.find? (fun r => r.id == id)

/-- Comparison used by `ORDER BY date ASC` on refills. -/
def RefillRow.dateLe (a b : RefillRow) : Prop := a.date ≤ b.date

instance : DecidableRel RefillRow.dateLe :=
  fun a b => inferInstanceAs (Decidable (a.date ≤ b.date))

instance : IsTotal RefillRow RefillRow.dateLe := ⟨fun a b => le_total a.date b.date⟩

instance : IsTrans RefillRow RefillRow.dateLe := ⟨fun _ _ _ h h2 => le_trans h h2⟩

/-- Model of `getRefills` (`SELECT * FROM refills ORDER BY date ASC`). -/
def getRefills (s : Store) : List RefillRow :=
  List.insertionSort RefillRow.dateLe s.refills

/-- Model of `updateRefill`: validates present fields, requires the row to
exist, recomputes efficiency from the effective post-update amount and
distance (stored value substituted for an absent field), overwrites the
supplied columns plus `efficiency` and `updated_at`, returns the re-read
row. The `liters` field of the patch is never read. -/
def updateRefill (dv : String → Bool) (s : Store) (now : Nat) (id : Nat)
    (p : RefillPatch) : Except String (RefillRow × Store) :=
  if p.amountSpent.any (fun a => decide (a ≤ 0)) then
    .error "Amount must be a positive number"
  else if p.distanceTraveled.any (fun d => decide (d ≤ 0)) then
    .error "Distance must be a positive number"
  else if p.date.any (fun d => !dv d) then
    .error "Invalid date format. Use ISO 8601 format"
  else
    match getRefillById s id with
    | none => .error "Resource not found"
    | some old =>
      let finalAmountSpent := p.amountSpent.getD old.amountSpent
      let finalDistance := p.distanceTraveled.getD old.distanceTraveled
      match calculateEfficiency finalAmountSpent finalDistance with
      | .error e => .error e
      | .ok eff =>
        let row : RefillRow :=
          { old with
            amountSpent := finalAmountSpent,
            distanceTraveled := finalDistance,
            date := p.date.getD old.date,
            notes := match p.notes with
              | some v => normText (some v)
              | none => old.notes,
            efficiency := eff,
            updatedAt := now }
        .ok (row, { s with refills := s.refills.map (fun r => if r.id = id then row else r) })

/-- Model of `deleteRefill`. -/
def deleteRefill (s : Store) (id : Nat) : Bool × Store :=
  (s.refills.any (fun r => r.id == id),
   { s with refills := s.refills.filter (fun r => r.id != id) })

/-! ### Mileage aggregator (`getMileageOverTime` in `tripService.ts`) -/

/-- Output point `{date, cumulativeDistance}`. -/
structure MileagePoint where
  date : String
  cumulativeDistance : ℚ
deriving DecidableEq

/-- Comparison used by `ORDER BY date ASC` on the UNION ALL subquery rows
`(date, distance)`. -/
def distEventLe (a b : String × ℚ) : Prop := a.1 ≤ b.1

instance : DecidableRel distEventLe :=
  fun a b => inferInstanceAs (Decidable (a.1 ≤ b.1))

instance : IsTotal (String × ℚ) distEventLe := ⟨fun a b => le_total a.1 b.1⟩

instance : IsTrans (String × ℚ) distEventLe := ⟨fun _ _ _ h h2 => le_trans h h2⟩

/-- The accumulation loop of `getMileageOverTime`: running prefix sum of the
distance column, one output point per row. -/
def cumulate (acc : ℚ) : List (String × ℚ) → List MileagePoint
  | [] => []
  | (d, x) :: rest =>
    { date := d, cumulativeDistance := acc + x } :: cumulate (acc + x) rest

/-- Model of `getMileageOverTime`: union the (date, distance) projections of
trips and refills (`distance_traveled` as distance), sort ascending by date,
then prefix-sum. -/
def getMileageOverTime (s : Store) : List MileagePoint :=
  cumulate 0 (List.insertionSort distEventLe
    (s.trips.map (fun t => (t.date, t.distance)) ++
     s.refills.map (fun r => (r.date, r.distanceTraveled))))

/-! ### Authentication service (`authService.ts`)

The model of the `jsonwebtoken` dependency is constructive: a token is
either a payload signed with a secret, or a malformed string; signature
verification is secret equality; `verify` rejects an expired token
(clock at or past `exp`).  `sign` with an `expiresIn` string outside the
recognized timespan format fails, per that library's documented behavior
(it does not substitute a default). -/

/-- Process environment visible to the auth service. A variable is either
unset (`none`) or set to a string; the code tests both with JavaScript
falsiness, so the empty string counts as unconfigured. -/
structure Env where
  appPassword : Option String
  jwtSecret : Option String
  jwtExpiresIn : Option String
deriving DecidableEq

/-- Decoded JWT claim set as used by this service: the `authenticated`
claim written by `createSession` (absent modelled as `false`), the issue
time, and the optional registered expiry claim. The `createdAt` string
claim of `createSession` carries no logic and is omitted. -/
structure JwtPayload where
  authenticated : Bool
  iat : Nat
  exp : Option Nat
deriving DecidableEq

/-- A token presented to the service: signed with some secret, or not a
well-formed JWT at all. -/
inductive Jwt where
  | signed (payload : JwtPayload) (secret : String)
  | malformed (raw : String)
deriving DecidableEq

/-- Model of `getJwtSecret`: throws when `JWT_SECRET` is unset or empty. -/
def getJwtSecret (env : Env) : Except String String :=
  match env.jwtSecret with
  | some s =>
    if s = "" then .error "JWT_SECRET environment variable is not configured"
    else .ok s
  | none => .error "JWT_SECRET environment variable is not configured"

/-- Model of `getJwtExpiresIn`: the raw configured string, with `'24h'`
substituted only when the variable is unset or empty
(`process.env.JWT_EXPIRES_IN || '24h'`). -/
def getJwtExpiresIn (env : Env) : String :=
  match env.jwtExpiresIn with
  | some s => if s = "" then "24h" else s
  | none => "24h"

/-- Model of `verifyPassword`: Configuration error when `APP_PASSWORD` is
unconfigured, otherwise exact string equality; no side effects. -/
def verifyPassword (env : Env) (password : String) : Except String Bool :=
  match env.appPassword with
  | some c =>
    if c = "" then .error "APP_PASSWORD environment variable is not configured"
    else .ok (password == c)
  | none => .error "APP_PASSWORD environment variable is not configured"

/-- Duration parsing done by `jsonwebtoken` for the `expiresIn` option,
restricted to the configuration contract format `<int><s|m|h|d>` (spec §6)
plus bare digit strings (milliseconds, floored to seconds); the result is
the lifetime in seconds, `none` when the string is not a recognized
timespan (in which case `sign` fails rather than substituting a default). -/
def parseDuration (s : String) : Option Nat :=
  let cs := s.toList
  let digits := cs.takeWhile Char.isDigit
  let rest := cs.dropWhile Char.isDigit
  if digits = [] then none
  else
    let n := digits.foldl (fun acc c => acc * 10 + (c.toNat - 48)) 0
    match rest with
    | [] => some (n / 1000)
    | ['s'] => some n
    | ['m'] => some (n * 60)
    | ['h'] => some (n * 3600)
    | ['d'] => some (n * 86400)
    | _ => none

/-- Model of `createSession`: reads the secret (propagating the
Configuration error), reads the expiry duration, and signs an
`authenticated = true` claim expiring that many seconds after `now`; an
unparseable duration makes the signing call fail. -/
def createSession (env : Env) (now : Nat) : Except String Jwt :=
  match getJwtSecret env with
  | .error e => .error e
  | .ok secret =>
    match parseDuration (getJwtExpiresIn env) with
    | none =>
      .error "\"expiresIn\" should be a number of seconds or string representing a timespan"
    | some secs =>
      .ok (.signed { authenticated := true, iat := now, exp := some (now + secs) } secret)

/-- Model of `jwt.verify`: `none` is a thrown verification error (malformed
token, wrong secret, or clock at/past `exp`); a token without an `exp`
claim never expires. -/
def jwtVerify (tok : Jwt) (secret : String) (now : Nat) : Option JwtPayload :=
  match tok with
  | .malformed _ => none
  | .signed p s =>
    if s = secret then
      match p.exp with
      | some e => if e ≤ now then none else some p
      | none => some p
    else none

/-- Model of `validateSession`: the whole body is wrapped in
`try ... catch { return false }`, so the thrown Configuration error of
`getJwtSecret` and every `jwt.verify` failure normalize to `false`; on
success the result is `decoded.authenticated === true`. Totality of this
function is the model of "never throws to the caller". -/
def validateSession (env : Env) (now : Nat) (tok : Jwt) : Bool :=
  match getJwtSecret env with
  | .error _ => false
  | .ok secret =>
    match jwtVerify tok secret now with
    | none => false
    | some p => p.authenticated

/-! ### Reachable stores -/

/-- Stores reachable from the freshly initialized schema through the
service operations (successful creates and updates, and deletes). The date
oracle `dv` is fixed across the trace. -/
inductive Reach (dv : String → Bool) : Store → Prop
  | init : Reach dv Store.empty
  | stepCreateExpense {s now inp r s1} : Reach dv s →
      createExpense dv s now inp = .ok (r, s1) → Reach dv s1
  | stepUpdateExpense {s now id p r s1} : Reach dv s →
      updateExpense dv s now id p = .ok (r, s1) → Reach dv s1
  | stepDeleteExpense {s id b s1} : Reach dv s →
      deleteExpense s id = (b, s1) → Reach dv s1
  | stepCreateRefill {s now inp r s1} : Reach dv s →
      createRefill dv s now inp = .ok (r, s1) → Reach dv s1
  | stepUpdateRefill {s now id p r s1} : Reach dv s →
      updateRefill dv s now id p = .ok (r, s1) → Reach dv s1
  | stepDeleteRefill {s id b s1} : Reach dv s →
      deleteRefill s id = (b, s1) → Reach dv s1
  | stepCreateTrip {s now inp r s1} : Reach dv s →
      createTrip dv s now inp = .ok (r, s1) → Reach dv s1
  | stepUpdateTrip {s now id p r s1} : Reach dv s →
      updateTrip dv s now id p = .ok (r, s1) → Reach dv s1
  | stepDeleteTrip {s id b s1} : Reach dv s →
      deleteTrip s id = (b, s1) → Reach dv s1

/-! ### Auxiliary definitions for the statements -/

/-- Recover the per-row (date, distance) contributions from a cumulative
series: the first point contributes its cumulative value over the starting
accumulator, each later point the difference to its predecessor. -/
def increments (acc : ℚ) : List MileagePoint → List (String × ℚ)
  | [] => []
  | p :: rest => (p.date, p.cumulativeDistance - acc) :: increments p.cumulativeDistance rest

/-- Date oracle accepting every string, used to instantiate witnesses (the
actual JavaScript parser accepts all dates appearing in them). -/
def dvAll : String → Bool := fun _ => true

/-- Refill row produced by the liters probe input of the C5 analysis. -/
def litersProbeRow : RefillRow :=
  { id := 1, amountSpent := 50, distanceTraveled := 10, liters := none,
    date := "2024-01-15T10:00:00.000Z", notes := none, efficiency := 5,
    createdAt := 100, updatedAt := 100 }

/-- Store state after inserting that row into the fresh schema. -/
def litersProbeStore : Store :=
  { expenses := [], refills := [litersProbeRow], trips := [],
    nextExpenseId := 1, nextRefillId := 2, nextTripId := 1 }

/-- Probe refill row after an empty-patch update at time 200. -/
def litersProbeRow200 : RefillRow := { litersProbeRow with updatedAt := 200 }

/-- Store state after that empty-patch update. -/
def litersProbeStore200 : Store := { litersProbeStore with refills := [litersProbeRow200] }

/-- A trip row with notes, for probing update behavior. -/
def tripProbeRow : TripRow :=
  { id := 1, distance := 7, date := "2024-02-02", purpose := none,
    notes := some "Original", createdAt := 10, updatedAt := 10 }

/-- The one-trip store holding that row. -/
def tripProbeStore : Store :=
  { expenses := [], refills := [], trips := [tripProbeRow],
    nextExpenseId := 1, nextRefillId := 1, nextTripId := 2 }

/-- The trip row after an update at time 20 supplying notes = "" — the
empty string is normalized away and the stored notes are NULL. -/
def tripProbeRowCleared : TripRow :=
  { tripProbeRow with notes := none, updatedAt := 20 }

/-- Store state after that update. -/
def tripProbeStoreCleared : Store :=
  { tripProbeStore with trips := [tripProbeRowCleared] }

/-! ### Stability of the date sort -/

/-- Inserting an element whose key equals `d` into a list puts it in front
of every equal-keyed element already present: the `d`-keyed sublist gains
the new element at its head. -/
theorem filter_orderedInsert_key_eq {α : Type} (r : α → α → Prop) [DecidableRel r]
    (key : α → String) (hr : ∀ x y, r x y ↔ key x ≤ key y)
    (a : α) (d : String) (ha : key a = d) :
    ∀ l : List α, (List.orderedInsert r a l).filter (fun x => key x == d) =
      a :: l.filter (fun x => key x == d)
  | [] => by simp [List.orderedInsert, ha]
  | y :: ys => by
    rw [List.orderedInsert]
    by_cases hray : r a y
    · rw [if_pos hray, List.filter_cons, if_pos (by simp [ha]), List.filter_cons]
    · rw [if_neg hray]
      have hyd : (key y == d) = false := by
        rw [beq_eq_false_iff_ne]
        intro hyd'
        exact hray ((hr a y).mpr (by rw [ha, hyd']))
      rw [List.filter_cons, if_neg (by simp [hyd]),
        filter_orderedInsert_key_eq r key hr a d ha ys,
        List.filter_cons, if_neg (by simp [hyd])]

/-- Inserting an element whose key differs from `d` leaves the `d`-keyed
sublist unchanged. -/
theorem filter_orderedInsert_key_ne {α : Type} (r : α → α → Prop) [DecidableRel r]
    (key : α → String) (a : α) (d : String) (ha : key a ≠ d) :
    ∀ l : List α, (List.orderedInsert r a l).filter (fun x => key x == d) =
      l.filter (fun x => key x == d)
  | [] => by simp [List.orderedInsert, ha]
  | y :: ys => by
    rw [List.orderedInsert]
    by_cases hray : r a y
    · rw [if_pos hray, List.filter_cons, if_neg (by simp [ha])]
    · rw [if_neg hray, List.filter_cons,
        filter_orderedInsert_key_ne r key a d ha ys, List.filter_cons]

/-- Insertion sort is a stable sort: for every key value `d`, the sublist
of `d`-keyed elements is exactly the one of the input, in input order. -/
theorem filter_insertionSort_key {α : Type} (r : α → α → Prop) [DecidableRel r]
    (key : α → String) (hr : ∀ x y, r x y ↔ key x ≤ key y) (d : String) :
    ∀ l : List α, (List.insertionSort r l).filter (fun x => key x == d) =
      l.filter (fun x => key x == d)
  | [] => rfl
  | a :: l => by
    rw [List.insertionSort]
    by_cases ha : key a = d
    · rw [filter_orderedInsert_key_eq r key hr a d ha,
        filter_insertionSort_key r key hr d l, List.filter_cons, if_pos (by simp [ha])]
    · rw [filter_orderedInsert_key_ne r key a d ha,
        filter_insertionSort_key r key hr d l, List.filter_cons, if_neg (by simp [ha])]

/-- C8: for each entity type and any table contents (hence any insertion
order of validly created rows), `list()` returns the rows sorted ascending
by date, as a permutation of the table, with the rows of each equal date
kept in insertion (rowid) order. -/
theorem list_sorted_by_date_stable (s : Store) :
    (List.Sorted TripRow.dateLe (getTrips s) ∧ List.Perm (getTrips s) s.trips ∧
      ∀ d, (getTrips s).filter (fun r => r.date == d) =
        s.trips.filter (fun r => r.date == d)) ∧
    (List.Sorted ExpenseRow.dateLe (getExpenses s) ∧ List.Perm (getExpenses s) s.expenses ∧
      ∀ d, (getExpenses s).filter (fun r => r.date == d) =
        s.expenses.filter (fun r => r.date == d)) ∧
    (List.Sorted RefillRow.dateLe (getRefills s) ∧ List.Perm (getRefills s) s.refills ∧
      ∀ d, (getRefills s).filter (fun r => r.date == d) =
        s.refills.filter (fun r => r.date == d)) :=
  ⟨⟨List.sorted_insertionSort TripRow.dateLe s.trips,
    List.perm_insertionSort TripRow.dateLe s.trips,
    fun d => filter_insertionSort_key TripRow.dateLe TripRow.date
      (fun _ _ => Iff.rfl) d s.trips⟩,
   ⟨List.sorted_insertionSort ExpenseRow.dateLe s.expenses,
    List.perm_insertionSort ExpenseRow.dateLe s.expenses,
    fun d => filter_insertionSort_key ExpenseRow.dateLe ExpenseRow.date
      (fun _ _ => Iff.rfl) d s.expenses⟩,
   ⟨List.sorted_insertionSort RefillRow.dateLe s.refills,
    List.perm_insertionSort RefillRow.dateLe s.refills,
    fun d => filter_insertionSort_key RefillRow.dateLe RefillRow.date
      (fun _ _ => Iff.rfl) d s.refills⟩⟩

/-! ### Mileage aggregation lemmas -/

/-- The accumulation loop emits one point per input row. -/
theorem cumulate_length : ∀ (l : List (String × ℚ)) (acc : ℚ),
    (cumulate acc l).length = l.length
  | [], _ => rfl
  | (d, x) :: rest, acc => by
    rw [cumulate, List.length_cons, List.length_cons, cumulate_length rest (acc + x)]

/-- The accumulation loop preserves the date column in order. -/
theorem cumulate_map_date : ∀ (l : List (String × ℚ)) (acc : ℚ),
    (cumulate acc l).map MileagePoint.date = l.map Prod.fst
  | [], _ => rfl
  | (d, x) :: rest, acc => by
    rw [cumulate, List.map_cons, List.map_cons, cumulate_map_date rest (acc + x)]

/-- Consecutive differences of the cumulative series recover the row
contributions: `increments` is a left inverse of `cumulate`. -/
theorem increments_cumulate : ∀ (l : List (String × ℚ)) (acc : ℚ),
    increments acc (cumulate acc l) = l
  | [], _ => rfl
  | (d, x) :: rest, acc => by
    rw [cumulate, increments, increments_cumulate rest (acc + x)]
    simp

/-- The last cumulative value is the accumulator plus the total of the
distance column. -/
theorem cumulate_getLast : ∀ (l : List (String × ℚ)) (acc : ℚ) (p : MileagePoint),
    (cumulate acc l).getLast? = some p →
    p.cumulativeDistance = acc + (l.map Prod.snd).sum
  | [], acc, p => by simp [cumulate]
  | [(d, x)], acc, p => by
    simp only [cumulate, List.getLast?_singleton, Option.some.injEq]
    intro h
    subst h
    simp
  | (d, x) :: (d2, x2) :: rest, acc, p => by
    rw [cumulate, cumulate, List.getLast?_cons_cons]
    intro h
    have := cumulate_getLast ((d2, x2) :: rest) (acc + x) p (by rw [cumulate]; exact h)
    rw [this]
    simp only [List.map_cons, List.sum_cons]
    ring

/-- The cumulative series is ascending in date whenever the input rows
are. -/
theorem pairwise_cumulate : ∀ (l : List (String × ℚ)) (acc : ℚ),
    List.Pairwise distEventLe l →
    List.Pairwise (fun p q : MileagePoint => p.date ≤ q.date) (cumulate acc l)
  | [], _, _ => List.Pairwise.nil
  | (d, x) :: rest, acc, h => by
    rw [cumulate]
    rcases List.pairwise_cons.mp h with ⟨hhead, htail⟩
    refine List.pairwise_cons.mpr ⟨?_, pairwise_cumulate rest (acc + x) htail⟩
    intro q hq
    have hqdate : q.date ∈ (cumulate (acc + x) rest).map MileagePoint.date :=
      List.mem_map_of_mem _ hq
    rw [cumulate_map_date] at hqdate
    rcases List.mem_map.mp hqdate with ⟨⟨d2, x2⟩, hmem, hd⟩
    have := hhead (d2, x2) hmem
    unfold distEventLe at this
    rw [hd] at this
    simpa using this

/-- C2: `getMileageOverTime` is ascending in date; undoing the prefix sums
recovers exactly the (date, distance) projections of all Trip and Refill
rows (as a multiset); the length is the total row count; the last point
carries the grand total of Trip.distance plus Refill.distanceTraveled; and
two empty tables give the empty sequence. -/
theorem getMileageOverTime_spec (s : Store) :
    List.Pairwise (fun p q : MileagePoint => p.date ≤ q.date) (getMileageOverTime s) ∧
    List.Perm (increments 0 (getMileageOverTime s))
      (s.trips.map (fun t => (t.date, t.distance)) ++
       s.refills.map (fun r => (r.date, r.distanceTraveled))) ∧
    (getMileageOverTime s).length = s.trips.length + s.refills.length ∧
    (∀ p, (getMileageOverTime s).getLast? = some p →
      p.cumulativeDistance = (s.trips.map TripRow.distance).sum +
        (s.refills.map RefillRow.distanceTraveled).sum) ∧
    (s.trips = [] → s.refills = [] → getMileageOverTime s = []) := by
  refine ⟨?_, ?_, ?_, ?_, ?_⟩
  · exact pairwise_cumulate _ 0 (List.sorted_insertionSort distEventLe _)
  · rw [getMileageOverTime, increments_cumulate]
    exact List.perm_insertionSort distEventLe _
  · rw [getMileageOverTime, cumulate_length,
      (List.perm_insertionSort distEventLe _).length_eq]
    simp
  · intro p h
    rw [getMileageOverTime] at h
    have hl := cumulate_getLast _ 0 p h
    rw [hl, ((List.perm_insertionSort distEventLe _).map Prod.snd).sum_eq]
    simp [Function.comp_def]
  · intro h1 h2
    rw [getMileageOverTime, h1, h2]
    rfl

/-! ### Password gate and sessions -/

/-- C9: with no configured reference secret, `verifyPassword` fails with
the Configuration error (a raised failure, distinct from the boolean
validation outcome, so callers can map it to a 5xx rather than a 401);
with a configured secret it returns exact string equality of the candidate
against it. The function reads nothing but the environment and has no side
effects (it is pure in the model). -/
theorem verifyPassword_spec (env : Env) (candidate : String) :
    ((env.appPassword = none ∨ env.appPassword = some "") →
      verifyPassword env candidate =
        .error "APP_PASSWORD environment variable is not configured") ∧
    (∀ secret, env.appPassword = some secret → secret ≠ "" →
      verifyPassword env candidate = .ok (candidate == secret)) := by
  constructor
  · rintro (h | h) <;> simp [verifyPassword, h]
  · intro secret hs hne
    simp [verifyPassword, hs, hne]

/-- C9 witness: unconfigured environment raises the Configuration error;
configured environment compares exactly. -/
theorem verifyPassword_spec_witness :
    verifyPassword { appPassword := none, jwtSecret := none, jwtExpiresIn := none } "pw"
      = .error "APP_PASSWORD environment variable is not configured" ∧
    verifyPassword { appPassword := some "s3cret", jwtSecret := none, jwtExpiresIn := none } "pw"
      = .ok false :=
  ⟨(verifyPassword_spec { appPassword := none, jwtSecret := none, jwtExpiresIn := none } "pw").1
      (Or.inl rfl),
   ((verifyPassword_spec { appPassword := some "s3cret", jwtSecret := none, jwtExpiresIn := none } "pw").2
      "s3cret" rfl (by decide)).trans (by decide)⟩

/-- C10: with the signing secret unconfigured, `validateSession` returns
`false` for every token and clock — the Configuration error thrown by
`getJwtSecret` is swallowed by the catch-all, indistinguishable at this
interface from an invalid or expired token. -/
theorem validateSession_missing_secret (env : Env) (now : Nat) (tok : Jwt)
    (h : env.jwtSecret = none ∨ env.jwtSecret = some "") :
    validateSession env now tok = false := by
  rcases h with h | h <;> simp [validateSession, getJwtSecret, h]

/-- C10 witness: a token that would verify under secret "k" is rejected
when the environment has no secret. -/
theorem validateSession_missing_secret_witness :
    validateSession { appPassword := none, jwtSecret := none, jwtExpiresIn := none } 5
      (.signed { authenticated := true, iat := 0, exp := some 100 } "k") = false :=
  validateSession_missing_secret _ 5 _ (Or.inl rfl)

/-- C3: with a configured signing secret, `validateSession` returns `true`
exactly when the token is signed with that secret, carries
`authenticated = true`, and is unexpired at the current clock; every other
input (wrong secret, malformed token, expired token, or a non-true
`authenticated` claim) yields `false`. The function is total — every
failure path is caught and normalized to `false`, never an exception. -/
theorem validateSession_spec (env : Env) (now : Nat) (secret : String)
    (hsec : env.jwtSecret = some secret) (hne : secret ≠ "") (tok : Jwt) :
    validateSession env now tok = true ↔
      ∃ p, tok = .signed p secret ∧ p.authenticated = true ∧
        ∀ e, p.exp = some e → now < e := by
  cases tok with
  | malformed r =>
    simp [validateSession, getJwtSecret, hsec, hne, jwtVerify]
  | signed p s =>
    by_cases hss : s = secret
    · subst hss
      cases hp : p.exp with
      | none =>
        simp [validateSession, getJwtSecret, hsec, hne, jwtVerify, hp]
      | some e =>
        by_cases hexp : e ≤ now
        · simp [validateSession, getJwtSecret, hsec, hne, jwtVerify, hp, hexp]
        · simp only [validateSession, getJwtSecret, hsec, hne]
          simp [jwtVerify, hp, hexp]
          intro _
          exact lt_of_not_le hexp
    · simp [validateSession, getJwtSecret, hsec, hne, jwtVerify, hss]

/-- C3 witness: a well-signed unexpired authenticated token validates; the
same token signed with a different secret does not. -/
theorem validateSession_spec_witness :
    validateSession { appPassword := none, jwtSecret := some "k", jwtExpiresIn := none } 5
      (.signed { authenticated := true, iat := 0, exp := some 100 } "k") = true ∧
    validateSession { appPassword := none, jwtSecret := some "k", jwtExpiresIn := none } 5
      (.signed { authenticated := true, iat := 0, exp := some 100 } "other") = false := by
  constructor
  · exact (validateSession_spec _ 5 "k" rfl (by decide) _).mpr
      ⟨{ authenticated := true, iat := 0, exp := some 100 }, rfl, rfl,
       by intro e he; cases he; decide⟩
  · have h := validateSession_spec
      { appPassword := none, jwtSecret := some "k", jwtExpiresIn := none } 5 "k" rfl
      (by decide) (.signed { authenticated := true, iat := 0, exp := some 100 } "other")
    rw [Bool.eq_false_iff]
    intro hx
    rcases h.mp hx with ⟨p, hp, -, -⟩
    injection hp with h1 h2
    exact absurd h2 (by decide)

/-- C4 counterexample: with the duration configured to the unrecognized
format "banana", createSession fails with the signing library's rejection
instead of producing a token with the 24h default expiry. -/
theorem createSession_unrecognized_fails :
    createSession { appPassword := none, jwtSecret := some "k", jwtExpiresIn := some "banana" } 0
      = .error "\"expiresIn\" should be a number of seconds or string representing a timespan" ∧
    createSession { appPassword := none, jwtSecret := some "k", jwtExpiresIn := some "banana" } 0
      ≠ .ok (.signed { authenticated := true, iat := 0, exp := some 86400 } "k") := by
  constructor
  · decide
  · decide

/-- C4 (amended): createSession signs an authenticated=true claim whose
expiry is the configured duration after issue; the 24h default applies
exactly when JWT_EXPIRES_IN is unset or empty; a configured but
unrecognized duration format is NOT replaced by 24h — the raw string is
passed through and the signing call fails. -/
theorem createSession_spec (env : Env) (now : Nat) (secret : String)
    (hsec : env.jwtSecret = some secret) (hne : secret ≠ "") :
    ((env.jwtExpiresIn = none ∨ env.jwtExpiresIn = some "") →
      createSession env now =
        .ok (.signed { authenticated := true, iat := now, exp := some (now + 86400) } secret)) ∧
    (∀ d, parseDuration (getJwtExpiresIn env) = some d →
      createSession env now =
        .ok (.signed { authenticated := true, iat := now, exp := some (now + d) } secret)) ∧
    (parseDuration (getJwtExpiresIn env) = none →
      createSession env now =
        .error "\"expiresIn\" should be a number of seconds or string representing a timespan") := by
  have hparse : parseDuration "24h" = some 86400 := by decide
  refine ⟨?_, ?_, ?_⟩
  · rintro (h | h) <;>
      simp [createSession, getJwtSecret, hsec, hne, getJwtExpiresIn, h, hparse]
  · intro d hd
    simp [createSession, getJwtSecret, hsec, hne, hd]
  · intro hd
    simp [createSession, getJwtSecret, hsec, hne, hd]

/-- C4 witness: with the duration unconfigured the issued token expires
86400 seconds (24h) after issue; with "12h" configured, 43200 seconds. -/
theorem createSession_spec_witness :
    createSession { appPassword := none, jwtSecret := some "k", jwtExpiresIn := none } 7
      = .ok (.signed { authenticated := true, iat := 7, exp := some (7 + 86400) } "k") ∧
    createSession { appPassword := none, jwtSecret := some "k", jwtExpiresIn := some "12h" } 7
      = .ok (.signed { authenticated := true, iat := 7, exp := some (7 + 43200) } "k") :=
  ⟨(createSession_spec { appPassword := none, jwtSecret := some "k", jwtExpiresIn := none }
      7 "k" rfl (by decide)).1 (Or.inl rfl),
   (createSession_spec { appPassword := none, jwtSecret := some "k", jwtExpiresIn := some "12h" }
      7 "k" rfl (by decide)).2.1 43200 (by decide)⟩

/-- C5: evaluating the code at the failing input — a valid createRefill
input carrying liters = 40 succeeds, but the created row and the row read
back through getRefillById carry no liters value, because the INSERT
statement omits the liters column (despite the schema declaring it, the
API route forwarding the field, and the Refill interface including it). -/
theorem createRefill_drops_liters :
    createRefill dvAll Store.empty 100
      { amountSpent := 50, distanceTraveled := 10, liters := some 40,
        date := "2024-01-15T10:00:00.000Z", notes := none }
      = .ok (litersProbeRow, litersProbeStore) ∧
    litersProbeRow.liters = none ∧
    getRefillById litersProbeStore 1 = some litersProbeRow := by
  refine ⟨?_, rfl, ?_⟩
  · have heff : calculateEfficiency 50 10 = .ok 5 := by
      rw [calculateEfficiency, if_neg (by norm_num)]
      norm_num
    simp [createRefill, dvAll, heff, litersProbeRow, litersProbeStore, Store.empty, normText]
    norm_num
  · rfl

/-! ### Shape of successful service operations -/

/-- Characterization of a successful `createTrip`: the returned row and the
resulting store. -/
theorem createTrip_ok {dv : String → Bool} {s : Store} {now : Nat}
    {inp : TripInput} {r : TripRow} {s1 : Store}
    (h : createTrip dv s now inp = .ok (r, s1)) :
    r = { id := s.nextTripId, distance := inp.distance, date := inp.date,
          purpose := normText inp.purpose, notes := normText inp.notes,
          createdAt := now, updatedAt := now } ∧
    s1 = { s with trips := s.trips ++ [r], nextTripId := s.nextTripId + 1 } := by
  rw [createTrip] at h
  split at h
  · simp at h
  · split at h
    · simp at h
    · split at h
      · simp at h
      · rw [Except.ok.injEq, Prod.mk.injEq] at h
        rcases h with ⟨h1, h2⟩
        subst h1
        exact ⟨rfl, h2.symm⟩

/-- Characterization of a successful `createExpense`. -/
theorem createExpense_ok {dv : String → Bool} {s : Store} {now : Nat}
    {inp : ExpenseInput} {r : ExpenseRow} {s1 : Store}
    (h : createExpense dv s now inp = .ok (r, s1)) :
    r = { id := s.nextExpenseId, type := inp.type, amount := inp.amount,
          date := inp.date, description := normText inp.description,
          createdAt := now, updatedAt := now } ∧
    s1 = { s with expenses := s.expenses ++ [r],
                  nextExpenseId := s.nextExpenseId + 1 } := by
  rw [createExpense] at h
  split at h
  · simp at h
  · split at h
    · simp at h
    · split at h
      · simp at h
      · split at h
        · simp at h
        · rw [Except.ok.injEq, Prod.mk.injEq] at h
          rcases h with ⟨h1, h2⟩
          subst h1
          exact ⟨rfl, h2.symm⟩

/-- Characterization of a successful `createRefill`: the validation bound
on the distance, the returned row (stored efficiency is the quotient and
the liters column is NULL), and the resulting store. -/
theorem createRefill_ok {dv : String → Bool} {s : Store} {now : Nat}
    {inp : RefillInput} {r : RefillRow} {s1 : Store}
    (h : createRefill dv s now inp = .ok (r, s1)) :
    ¬ inp.distanceTraveled ≤ 0 ∧
    r = { id := s.nextRefillId, amountSpent := inp.amountSpent,
          distanceTraveled := inp.distanceTraveled, liters := none,
          date := inp.date, notes := normText inp.notes,
          efficiency := inp.amountSpent / inp.distanceTraveled,
          createdAt := now, updatedAt := now } ∧
    s1 = { s with refills := s.refills ++ [r],
                  nextRefillId := s.nextRefillId + 1 } := by
  rw [createRefill] at h
  split at h
  · simp at h
  · split at h
    · simp at h
    · split at h
      · simp at h
      · split at h
        · simp at h
        · by_cases hdist : inp.distanceTraveled ≤ 0
          · rw [calculateEfficiency, if_pos hdist] at h
            simp at h
          · rw [calculateEfficiency, if_neg hdist] at h
            simp only [Except.ok.injEq, Prod.mk.injEq] at h
            rcases h with ⟨h1, h2⟩
            subst h1
            exact ⟨hdist, rfl, h2.symm⟩

/-- Characterization of a successful `updateTrip`: the pre-existing row,
the returned row field by field, and the resulting store. -/
theorem updateTrip_ok {dv : String → Bool} {s : Store} {now : Nat} {id : Nat}
    {p : TripPatch} {r : TripRow} {s1 : Store}
    (h : updateTrip dv s now id p = .ok (r, s1)) :
    ∃ old, getTripById s id = some old ∧
      r = { old with
        distance := p.distance.getD old.distance,
        date := p.date.getD old.date,
        purpose := match p.purpose with
          | some v => normText (some v)
          | none => old.purpose,
        notes := match p.notes with
          | some v => normText (some v)
          | none => old.notes,
        updatedAt := now } ∧
      s1 = { s with trips := s.trips.map (fun x => if x.id = id then r else x) } := by
  rw [updateTrip] at h
  split at h
  · simp at h
  · split at h
    · simp at h
    · split at h
      · simp at h
      · next old hold =>
        rw [Except.ok.injEq, Prod.mk.injEq] at h
        rcases h with ⟨h1, h2⟩
        subst h1
        exact ⟨old, hold, rfl, h2.symm⟩

/-- Characterization of a successful `updateExpense`. -/
theorem updateExpense_ok {dv : String → Bool} {s : Store} {now : Nat} {id : Nat}
    {p : ExpensePatch} {r : ExpenseRow} {s1 : Store}
    (h : updateExpense dv s now id p = .ok (r, s1)) :
    ∃ old, getExpenseById s id = some old ∧
      r = { old with
        type := p.type.getD old.type,
        amount := p.amount.getD old.amount,
        date := p.date.getD old.date,
        description := match p.description with
          | some v => normText (some v)
          | none => old.description,
        updatedAt := now } ∧
      s1 = { s with expenses := s.expenses.map (fun x => if x.id = id then r else x) } := by
  rw [updateExpense] at h
  split at h
  · simp at h
  · split at h
    · simp at h
    · split at h
      · simp at h
      · split at h
        · simp at h
        · next old hold =>
          rw [Except.ok.injEq, Prod.mk.injEq] at h
          rcases h with ⟨h1, h2⟩
          subst h1
          exact ⟨old, hold, rfl, h2.symm⟩

/-- Characterization of a successful `updateRefill`: the pre-existing row,
the bound on the effective distance, the returned row (efficiency is the
quotient of the effective post-update values), and the resulting store. -/
theorem updateRefill_ok {dv : String → Bool} {s : Store} {now : Nat} {id : Nat}
    {p : RefillPatch} {r : RefillRow} {s1 : Store}
    (h : updateRefill dv s now id p = .ok (r, s1)) :
    ∃ old, getRefillById s id = some old ∧
      ¬ p.distanceTraveled.getD old.distanceTraveled ≤ 0 ∧
      r = { old with
        amountSpent := p.amountSpent.getD old.amountSpent,
        distanceTraveled := p.distanceTraveled.getD old.distanceTraveled,
        date := p.date.getD old.date,
        notes := match p.notes with
          | some v => normText (some v)
          | none => old.notes,
        efficiency := p.amountSpent.getD old.amountSpent /
          p.distanceTraveled.getD old.distanceTraveled,
        updatedAt := now } ∧
      s1 = { s with refills := s.refills.map (fun x => if x.id = id then r else x) } := by
  rw [updateRefill] at h
  split at h
  · simp at h
  · split at h
    · simp at h
    · split at h
      · simp at h
      · split at h
        · simp at h
        · next old hold =>
          by_cases hdist : p.distanceTraveled.getD old.distanceTraveled ≤ 0
          · simp only [calculateEfficiency] at h
            rw [if_pos hdist] at h
            simp at h
          · simp only [calculateEfficiency] at h
            rw [if_neg hdist] at h
            simp only [Except.ok.injEq, Prod.mk.injEq] at h
            rcases h with ⟨h1, h2⟩
            subst h1
            exact ⟨old, hold, hdist, rfl, h2.symm⟩

/-! ### The refill efficiency invariant -/

/-- Every refill row of a reachable store satisfies
`efficiency = amountSpent / distanceTraveled`. -/
theorem reach_refill_efficiency {dv : String → Bool} {s : Store} (h : Reach dv s) :
    ∀ r ∈ s.refills, r.efficiency = r.amountSpent / r.distanceTraveled := by
  induction h with
  | init => intro r hr; simp [Store.empty] at hr
  | stepCreateExpense _ hstep ih =>
    rcases createExpense_ok hstep with ⟨-, rfl⟩
    exact ih
  | stepUpdateExpense _ hstep ih =>
    rcases updateExpense_ok hstep with ⟨old, -, -, rfl⟩
    exact ih
  | stepDeleteExpense _ hstep ih =>
    simp only [deleteExpense, Prod.mk.injEq] at hstep
    rcases hstep with ⟨-, rfl⟩
    exact ih
  | stepCreateTrip _ hstep ih =>
    rcases createTrip_ok hstep with ⟨-, rfl⟩
    exact ih
  | stepUpdateTrip _ hstep ih =>
    rcases updateTrip_ok hstep with ⟨old, -, -, rfl⟩
    exact ih
  | stepDeleteTrip _ hstep ih =>
    simp only [deleteTrip, Prod.mk.injEq] at hstep
    rcases hstep with ⟨-, rfl⟩
    exact ih
  | stepCreateRefill _ hstep ih =>
    rcases createRefill_ok hstep with ⟨hdist, hr, rfl⟩
    intro x hmem
    rcases List.mem_append.mp hmem with hm | hm
    · exact ih x hm
    · rcases List.mem_singleton.mp hm with rfl
      rw [hr]
  | stepUpdateRefill _ hstep ih =>
    rcases updateRefill_ok hstep with ⟨old, hold, hdist, hr, rfl⟩
    intro x hmem
    rcases List.mem_map.mp hmem with ⟨y, hy, hxy⟩
    split at hxy
    · rw [← hxy, hr]
    · rw [← hxy]
      exact ih y hy
  | stepDeleteRefill _ hstep ih =>
    simp only [deleteRefill, Prod.mk.injEq] at hstep
    rcases hstep with ⟨-, rfl⟩
    intro x hmem
    exact ih x (List.mem_of_mem_filter hmem)

/-- The liters probe input applied to the fresh schema inserts exactly the
probe row. -/
theorem createRefill_probe :
    createRefill dvAll Store.empty 100
      { amountSpent := 50, distanceTraveled := 10, liters := some 40,
        date := "2024-01-15T10:00:00.000Z", notes := none }
      = .ok (litersProbeRow, litersProbeStore) := by
  have heff : calculateEfficiency 50 10 = .ok 5 := by
    rw [calculateEfficiency, if_neg (by norm_num)]
    norm_num
  simp [createRefill, dvAll, heff, litersProbeRow, litersProbeStore, Store.empty, normText]
  norm_num

/-- C1: every refill row reachable through the service operations satisfies
`efficiency = amountSpent / distanceTraveled`; `createRefill` stores exactly
that quotient, and `updateRefill` recomputes it from the effective
post-update values, substituting the stored value for whichever of
amountSpent / distanceTraveled is absent from the partial input — so the
invariant holds again after every update, including updates touching
neither field. -/
theorem refill_efficiency_invariant (dv : String → Bool) :
    (∀ s, Reach dv s → ∀ r ∈ s.refills,
      r.efficiency = r.amountSpent / r.distanceTraveled) ∧
    (∀ s now inp r s1, createRefill dv s now inp = .ok (r, s1) →
      r.efficiency = inp.amountSpent / inp.distanceTraveled) ∧
    (∀ s now id p r s1 old, updateRefill dv s now id p = .ok (r, s1) →
      getRefillById s id = some old →
      r.amountSpent = p.amountSpent.getD old.amountSpent ∧
      r.distanceTraveled = p.distanceTraveled.getD old.distanceTraveled ∧
      r.efficiency = r.amountSpent / r.distanceTraveled) := by
  refine ⟨fun s h => reach_refill_efficiency h, ?_, ?_⟩
  · intro s now inp r s1 h
    rcases createRefill_ok h with ⟨-, rfl, -⟩
    rfl
  · intro s now id p r s1 old h hold
    rcases updateRefill_ok h with ⟨old2, hold2, hdist, hr, -⟩
    rw [hold] at hold2
    injection hold2 with hoo
    subst hoo
    subst hr
    exact ⟨rfl, rfl, rfl⟩

/-- C1 witness: in the store reached by one successful createRefill, the
stored row's efficiency is the quotient of its amount and distance. -/
theorem refill_efficiency_invariant_witness :
    litersProbeRow.efficiency = litersProbeRow.amountSpent / litersProbeRow.distanceTraveled :=
  (refill_efficiency_invariant dvAll).1 litersProbeStore
    (Reach.stepCreateRefill Reach.init createRefill_probe)
    litersProbeRow (by simp [litersProbeStore])

/-! ### Empty-string text fields and the update frame -/

/-- Updating the probe trip with notes = "" succeeds and stores NULL
notes. -/
theorem updateTrip_clear_probe :
    updateTrip dvAll tripProbeStore 20 1
      { distance := none, date := none, purpose := none, notes := some "" } =
      .ok (tripProbeRowCleared, tripProbeStoreCleared) := by
  simp [updateTrip, dvAll, getTripById, tripProbeStore, tripProbeRow, normText,
    tripProbeRowCleared, tripProbeStoreCleared]

/-- C6 counterexample: the probe trip stores notes "Original"; updating it
with notes supplied as the empty string succeeds, yet the resulting
(re-read) row carries no notes value at all — the empty string was
normalized to NULL, not persisted. -/
theorem update_empty_string_counterexample :
    updateTrip dvAll tripProbeStore 20 1
      { distance := none, date := none, purpose := none, notes := some "" } =
      .ok (tripProbeRowCleared, tripProbeStoreCleared) ∧
    tripProbeRow.notes = some "Original" ∧
    tripProbeRowCleared.notes = none ∧
    tripProbeRowCleared.notes ≠ some "" :=
  ⟨updateTrip_clear_probe, rfl, rfl, by decide⟩

/-- C6 (amended): an update that supplies an optional text field as the
empty string does not persist the empty string — the service writes
`value || null`, so the field is cleared to NULL and the re-read entity
carries no value, exactly as create treats an empty optional text field as
not provided. The empty string never persists on either path. -/
theorem empty_string_text_fields_clear (dv : String → Bool) (s : Store) (now : Nat) :
    (∀ id p r s1, updateTrip dv s now id p = .ok (r, s1) →
      (p.notes = some "" → r.notes = none) ∧
      (p.purpose = some "" → r.purpose = none)) ∧
    (∀ id p r s1, updateExpense dv s now id p = .ok (r, s1) →
      p.description = some "" → r.description = none) ∧
    (∀ id p r s1, updateRefill dv s now id p = .ok (r, s1) →
      p.notes = some "" → r.notes = none) ∧
    (∀ inp r s1, createTrip dv s now inp = .ok (r, s1) →
      (inp.notes = some "" → r.notes = none) ∧
      (inp.purpose = some "" → r.purpose = none)) ∧
    (∀ inp r s1, createExpense dv s now inp = .ok (r, s1) →
      inp.description = some "" → r.description = none) ∧
    (∀ inp r s1, createRefill dv s now inp = .ok (r, s1) →
      inp.notes = some "" → r.notes = none) := by
  refine ⟨?_, ?_, ?_, ?_, ?_, ?_⟩
  · intro id p r s1 h
    rcases updateTrip_ok h with ⟨old, -, rfl, -⟩
    exact ⟨fun hn => by simp [hn, normText], fun hn => by simp [hn, normText]⟩
  · intro id p r s1 h
    rcases updateExpense_ok h with ⟨old, -, rfl, -⟩
    intro hn
    simp [hn, normText]
  · intro id p r s1 h
    rcases updateRefill_ok h with ⟨old, -, -, rfl, -⟩
    intro hn
    simp [hn, normText]
  · intro inp r s1 h
    rcases createTrip_ok h with ⟨rfl, -⟩
    exact ⟨fun hn => by simp [hn, normText], fun hn => by simp [hn, normText]⟩
  · intro inp r s1 h
    rcases createExpense_ok h with ⟨rfl, -⟩
    intro hn
    simp [hn, normText]
  · intro inp r s1 h
    rcases createRefill_ok h with ⟨-, rfl, -⟩
    intro hn
    simp [hn, normText]

/-- C6 witness: applying the amended statement to the probe update — the
supplied empty-string notes come back as no value. -/
theorem empty_string_text_fields_clear_witness :
    tripProbeRowCleared.notes = none :=
  ((empty_string_text_fields_clear dvAll tripProbeStore 20).1 1
    { distance := none, date := none, purpose := none, notes := some "" }
    tripProbeRowCleared tripProbeStoreCleared updateTrip_clear_probe).1 rfl

/-- Empty-patch update of the probe refill at time 200: only updatedAt
changes. -/
theorem updateRefill_probe :
    updateRefill dvAll litersProbeStore 200 1 RefillPatch.empty =
      .ok (litersProbeRow200, litersProbeStore200) := by
  have heff : calculateEfficiency 50 10 = .ok 5 := by
    rw [calculateEfficiency, if_neg (by norm_num)]
    norm_num
  simp [updateRefill, dvAll, getRefillById, litersProbeStore, litersProbeRow,
    RefillPatch.empty, litersProbeRow200, litersProbeStore200, heff]

/-- C7: frame property of update for all three entity types and every
partial input: the updated row keeps the id and createdAt of the stored
row, every field absent from the patch keeps its stored value (a Refill's
liters column is never touched, and its efficiency always equals the
quotient of its post-update inputs), updatedAt becomes the update time —
hence is ≥ the pre-update updatedAt and createdAt whenever the clock has
not run backwards — and the empty patch changes nothing but updatedAt (for
Refill, given the stored row satisfied the efficiency invariant, as every
reachable row does). -/
theorem update_frame (dv : String → Bool) (s : Store) (now : Nat) (id : Nat) :
    (∀ p r s1, updateTrip dv s now id p = .ok (r, s1) →
      ∃ old, getTripById s id = some old ∧
        r.id = old.id ∧ r.createdAt = old.createdAt ∧ r.updatedAt = now ∧
        (p.distance = none → r.distance = old.distance) ∧
        (p.date = none → r.date = old.date) ∧
        (p.purpose = none → r.purpose = old.purpose) ∧
        (p.notes = none → r.notes = old.notes) ∧
        (old.updatedAt ≤ now → old.updatedAt ≤ r.updatedAt) ∧
        (old.createdAt ≤ now → old.createdAt ≤ r.updatedAt) ∧
        (p = TripPatch.empty → r = { old with updatedAt := now })) ∧
    (∀ p r s1, updateExpense dv s now id p = .ok (r, s1) →
      ∃ old, getExpenseById s id = some old ∧
        r.id = old.id ∧ r.createdAt = old.createdAt ∧ r.updatedAt = now ∧
        (p.type = none → r.type = old.type) ∧
        (p.amount = none → r.amount = old.amount) ∧
        (p.date = none → r.date = old.date) ∧
        (p.description = none → r.description = old.description) ∧
        (old.updatedAt ≤ now → old.updatedAt ≤ r.updatedAt) ∧
        (old.createdAt ≤ now → old.createdAt ≤ r.updatedAt) ∧
        (p = ExpensePatch.empty → r = { old with updatedAt := now })) ∧
    (∀ p r s1, updateRefill dv s now id p = .ok (r, s1) →
      ∃ old, getRefillById s id = some old ∧
        r.id = old.id ∧ r.createdAt = old.createdAt ∧ r.updatedAt = now ∧
        r.liters = old.liters ∧
        (p.amountSpent = none → r.amountSpent = old.amountSpent) ∧
        (p.distanceTraveled = none → r.distanceTraveled = old.distanceTraveled) ∧
        (p.date = none → r.date = old.date) ∧
        (p.notes = none → r.notes = old.notes) ∧
        r.efficiency = r.amountSpent / r.distanceTraveled ∧
        (old.updatedAt ≤ now → old.updatedAt ≤ r.updatedAt) ∧
        (old.createdAt ≤ now → old.createdAt ≤ r.updatedAt) ∧
        (p = RefillPatch.empty →
          old.efficiency = old.amountSpent / old.distanceTraveled →
          r = { old with updatedAt := now })) := by
  refine ⟨?_, ?_, ?_⟩
  · intro p r s1 h
    rcases updateTrip_ok h with ⟨old, hold, rfl, -⟩
    refine ⟨old, hold, rfl, rfl, rfl, ?_, ?_, ?_, ?_, fun hle => hle, fun hle => hle, ?_⟩
    · intro hn; simp [hn]
    · intro hn; simp [hn]
    · intro hn; simp [hn]
    · intro hn; simp [hn]
    · intro hp; subst hp; rfl
  · intro p r s1 h
    rcases updateExpense_ok h with ⟨old, hold, rfl, -⟩
    refine ⟨old, hold, rfl, rfl, rfl, ?_, ?_, ?_, ?_, fun hle => hle, fun hle => hle, ?_⟩
    · intro hn; simp [hn]
    · intro hn; simp [hn]
    · intro hn; simp [hn]
    · intro hn; simp [hn]
    · intro hp; subst hp; rfl
  · intro p r s1 h
    rcases updateRefill_ok h with ⟨old, hold, hdist, rfl, -⟩
    refine ⟨old, hold, rfl, rfl, rfl, rfl, ?_, ?_, ?_, ?_, rfl,
      fun hle => hle, fun hle => hle, ?_⟩
    · intro hn; simp [hn]
    · intro hn; simp [hn]
    · intro hn; simp [hn]
    · intro hn; simp [hn]
    · intro hp hinv
      subst hp
      simp [RefillPatch.empty, ← hinv]

/-- C7 witness: the empty-patch update of the probe refill keeps id,
createdAt and every data field, and refreshes only updatedAt. -/
theorem update_frame_witness :
    litersProbeRow200.createdAt = 100 ∧ litersProbeRow200.updatedAt = 200 ∧
    litersProbeRow200 = { litersProbeRow with updatedAt := 200 } := by
  rcases (update_frame dvAll litersProbeStore 200 1).2.2 RefillPatch.empty
      litersProbeRow200 litersProbeStore200 updateRefill_probe with
    ⟨old, hold, hid, hc, hu, hlit, ha, hd, hdt, hn, heff, hm1, hm2, hempty⟩
  have holdv : old = litersProbeRow := by
    have hv : getRefillById litersProbeStore 1 = some litersProbeRow := rfl
    rw [hv] at hold
    injection hold with hoo
    exact hoo.symm
  subst holdv
  refine ⟨by rw [hc]; rfl, hu, ?_⟩
  exact hempty rfl (by norm_num [litersProbeRow])
